import Mathlib

/-!
Verification of the study-buddy backend (quiz / exam / mastery / multiplayer
engine) against its natural-language specification.  The Python source is
shallowly embedded: association lists stand for CPython dicts (which preserve
insertion order), rationals stand for Python numbers, and the in-memory game
map is threaded explicitly through each request handler.  Lock acquisition is
erased (each handler is modelled as one atomic step); where the source's
locking itself is wrong this is recorded next to the relevant definition.
-/

namespace StudyBuddy

/-- Python dict assignment `d[k] = v` on an association list: replaces the
first binding of `k` in place, otherwise appends the new binding at the end
(CPython dicts preserve insertion order). -/
def dictSet {β : Type _} (k : String) (v : β) : List (String × β) → List (String × β)
  | [] => [(k, v)]
  | (k', v') :: rest => if k' = k then (k, v) :: rest else (k', v') :: dictSet k v rest

/-- Python dict read `d.get(k)` / membership `k in d` on an association
list: the value bound to the first (and, for a dict, only) occurrence of the
key. -/
def dictGet {β : Type _} (k : String) : List (String × β) → Option β
  | [] => none
  | (a, b) :: t => if a = k then some b else dictGet k t

/-- Python `int(x)` truncates toward zero. -/
def pyInt (q : ℚ) : ℤ := if 0 ≤ q then ⌊q⌋ else -⌊-q⌋

/-- Python truthiness of an optional string field taken from a JSON body:
`None` and `""` are falsy. -/
def truthyStr : Option String → Bool
  | none => false
  | some s => decide (s ≠ "")

/-- Python truthiness of an optional numeric field taken from a JSON body:
`None` and `0` are falsy. -/
def truthyNum : Option ℚ → Bool
  | none => false
  | some q => decide (q ≠ 0)

/-! ## Multiplayer engine (multiplayer.py) -/

/-- The `state` field of a game dict. -/
inductive GameState
  | lobby
  | starting
  | playing
  | ended
deriving DecidableEq

/-- One value of the `players` dict: `{'username': ..., 'score': ...}`. -/
structure Player where
  username : String
  score : ℤ
deriving DecidableEq

/-- One value of the per-round `answer_counts` dict. -/
structure AnswerRecord where
  answer : String
  is_correct : Bool
  score : ℤ
  response_time : ℚ
deriving DecidableEq

/-- The fields of the question dict returned by `generate_quiz_question` in
multiplayer mode that `generate_new_question` reads. -/
structure MPQuestion where
  question_id : String
  question : String
  answers : List String
  correct_answer : String
deriving DecidableEq

/-- One game dict from the module-level `games` map (multiplayer.py,
`create_game`). -/
structure Game where
  host : String
  topic : String
  year_group : String
  max_questions : ℕ
  players : List (String × Player)
  state : GameState
  current_question : Option String
  question_id : Option String
  correct_answer : Option String
  answers : List String
  countdown : ℕ
  question_number : ℕ
  answer_counts : List (String × AnswerRecord)
  all_answered : Bool
deriving DecidableEq

/-- The whole module-level `games` map. -/
abbrev Games := List (String × Game)

/-- The round score computed by `api_submit_answer` (multiplayer.py lines
186-190):
`score = 100 if is_correct else 0`, then
`if is_correct and response_time < max_time: score += int((1 - response_time / max_time) * 50)`
with `max_time = 15`. -/
def round_score (is_correct : Bool) (response_time : ℚ) : ℤ :=
  (if is_correct = true then 100 else 0) +
    (if is_correct = true ∧ response_time < 15 then pyInt ((1 - response_time / 15) * 50)
     else 0)

/-- Outcome of `generate_new_question` as observed by its only caller. -/
inductive GenOutcome
  | ended (g : Game)
  | drawn (g : Game) (q : MPQuestion)
  | genFailed (g : Game)
deriving DecidableEq

/-- `generate_new_question` (multiplayer.py lines 70-101), lock-erased.  The
external question author is the oracle argument `gen`; `gen = none` models
`generate_quiz_question` returning an error dict, in which case the source
raises `KeyError` on `question_data['question']` before mutating the game.
Note the source re-acquires the module-level non-reentrant `game_lock` here
while its only caller `api_submit_answer` already holds it. -/
def generate_new_question (g : Game) (gen : Option MPQuestion) : GenOutcome :=
  if g.max_questions ≤ g.question_number then
    GenOutcome.ended { g with state := GameState.ended }
  else
    match gen with
    | none => GenOutcome.genFailed g
    | some q =>
        GenOutcome.drawn
          { g with
            current_question := some q.question
            question_id := some q.question_id
            correct_answer := some q.correct_answer
            answers := q.answers
            question_number := g.question_number + 1
            state := GameState.playing
            answer_counts := []
            all_answered := false } q

/-- The JSON body of a `/api/submit_answer` request. -/
structure SubmitRequest where
  user_id : Option String
  game_code : Option String
  question_id : Option String
  answer : Option String
  response_time : Option ℚ
deriving DecidableEq

/-- `if not all([user_id, game_code, question_id, answer, response_time])`
(multiplayer.py line 177). -/
def allTruthy (req : SubmitRequest) : Bool :=
  truthyStr req.user_id && truthyStr req.game_code && truthyStr req.question_id &&
    truthyStr req.answer && truthyNum req.response_time

/-- The HTTP-level outcome of `api_submit_answer`. -/
inductive SubmitResult
  | missingFields
  | gameNotFound
  | questionNotFound
  | internalError
  | ok (is_correct : Bool) (score : ℤ)
deriving DecidableEq

/-- `api_submit_answer` (multiplayer.py lines 168-225), lock-erased.
`internalError` covers the two exception paths: `KeyError` when the submitting
user is not in `game['players']`, and the `KeyError` raised inside
`generate_new_question` when question generation fails (the latter happens
after the score has already been applied; the in-place dict mutations are not
rolled back). -/
def api_submit_answer (games : Games) (req : SubmitRequest) (gen : Option MPQuestion) :
    Games × SubmitResult :=
  if allTruthy req = false then
    (games, SubmitResult.missingFields)
  else
    let user_id := req.user_id.getD ""
    let game_code := req.game_code.getD ""
    let question_id := req.question_id.getD ""
    let answer := req.answer.getD ""
    let response_time := req.response_time.getD 0
    match dictGet game_code games with
    | none => (games, SubmitResult.gameNotFound)
    | some game =>
        if game.question_id ≠ some question_id then
          (games, SubmitResult.questionNotFound)
        else
          let is_correct : Bool := some answer = game.correct_answer
          let score := round_score is_correct response_time
          match dictGet user_id game.players with
          | none => (games, SubmitResult.internalError)
          | some p =>
              let players' := dictSet user_id { p with score := p.score + score } game.players
              let counts' :=
                dictSet user_id
                  { answer := answer, is_correct := is_correct, score := score,
                    response_time := response_time } game.answer_counts
              let all_answered := counts'.length = players'.length
              let g1 := { game with
                players := players'
                answer_counts := counts'
                all_answered := all_answered }
              if all_answered then
                match generate_new_question g1 gen with
                | GenOutcome.ended g2 =>
                    (dictSet game_code g2 games, SubmitResult.ok is_correct (p.score + score))
                | GenOutcome.drawn g2 _ =>
                    (dictSet game_code g2 games, SubmitResult.ok is_correct (p.score + score))
                | GenOutcome.genFailed g2 =>
                    (dictSet game_code g2 games, SubmitResult.internalError)
              else
                (dictSet game_code g1 games, SubmitResult.ok is_correct (p.score + score))

/-- The leaderboard built when a game ends (multiplayer.py lines 213-217):
the `(username, score)` projection of the players dict sorted by score,
`reverse=True`. -/
def scoreGe (a b : String × ℤ) : Prop := b.2 ≤ a.2

instance : DecidableRel scoreGe := fun a b => inferInstanceAs (Decidable (b.2 ≤ a.2))

instance : IsTotal (String × ℤ) scoreGe := ⟨fun a b => le_total b.2 a.2⟩

instance : IsTrans (String × ℤ) scoreGe := ⟨fun _ _ _ h h' => le_trans h' h⟩

def leaderboard (g : Game) : List (String × ℤ) :=
  List.insertionSort scoreGe (g.players.map fun pr => (pr.2.username, pr.2.score))

/-- `join_game` (multiplayer.py lines 47-55).  The raised exceptions are the
error results; note the function checks only existence of the game and
membership of the joining id, never `game['state']`. -/
def join_game (games : Games) (user_id game_code username : String) :
    Except String Games :=
  match dictGet game_code games with
  | none => Except.error "Game not found"
  | some game =>
      if (dictGet user_id game.players).isSome then
        Except.error "User already in game"
      else
        Except.ok
          (dictSet game_code
            { game with players := dictSet user_id { username := username, score := 0 } game.players }
            games)

/-- The HTTP-level outcome of `api_leave_game`. -/
inductive LeaveResult
  | missingFields
  | gameNotFound
  | left
deriving DecidableEq

/-- `api_leave_game` (multiplayer.py lines 270-303), lock-erased.  The empty
string stands for an absent (falsy) JSON field.  `next(iter(...), None)` is
the head of the remaining players dict; the `if new_host:` guard means an
empty-string key would be skipped. -/
def api_leave_game (games : Games) (user_id game_code : String) : Games × LeaveResult :=
  if user_id = "" ∨ game_code = "" then
    (games, LeaveResult.missingFields)
  else
    match dictGet game_code games with
    | none => (games, LeaveResult.gameNotFound)
    | some game =>
        if (dictGet user_id game.players).isSome then
          let players' := game.players.filter fun pr => pr.1 != user_id
          if players' = [] then
            (games.filter fun pr => pr.1 != game_code, LeaveResult.left)
          else if game.host = user_id then
            let new_host := (players'.head?.map Prod.fst).getD ""
            if new_host ≠ "" then
              (dictSet game_code { game with players := players', host := new_host } games,
                LeaveResult.left)
            else
              (dictSet game_code { game with players := players' } games, LeaveResult.left)
          else
            (dictSet game_code { game with players := players' } games, LeaveResult.left)
        else
          (games, LeaveResult.left)

/-! ## Question authoring (Quiz.py, exam.py) -/

/-- `MAX_RETRIES` (Quiz.py line 28, exam.py line 28). -/
def MAX_RETRIES : ℕ := 5

/-- `PASS_THRESHOLD = 0.7` (Quiz.py line 29, exam.py line 29). -/
def PASS_THRESHOLD : ℚ := 7 / 10

/-- A candidate question parsed from the text-generation service's JSON
output (the four keys checked at Quiz.py line 207 / exam.py line 166).  The
fresh uuid `question_id` and the echoed topic / year_group metadata added on
success are environment-supplied and not referenced by any claim. -/
structure Candidate where
  question : String
  answers : List String
  correct_answer : String
  explanation : String
deriving DecidableEq

/-- The outcome of one question-generation call: a validated question dict or
an error dict with the given message. -/
inductive GenResult
  | ok (q : Candidate)
  | genError (msg : String)
deriving DecidableEq

/-- The recursion of `generate_quiz_question` (Quiz.py lines 102-260) on its
authored path, restricted to its decision-relevant inputs.  `oracle i` is the
candidate parsed from the i-th generation attempt (`none` for an API failure,
a missing key, or a JSON parse failure, each of which yields an error dict).
`history` is the list of question texts in the caller-supplied quiz history
(the duplicate check at line 215 compares only `question['question']`).
`remaining` is `MAX_RETRIES - retry_count`, so `0 < remaining` is exactly the
source's guard `retry_count < MAX_RETRIES` and the recursive call at line 218
passes `retry_count + 1`. -/
def genFrom (oracle : ℕ → Option Candidate) (history : List String) :
    ℕ → ℕ → GenResult
  | retry_count, remaining =>
    match oracle retry_count with
    | none => GenResult.genError "Unable to generate quiz question"
    | some c =>
        if c.answers.length ≠ 4 ∨ c.correct_answer ∉ c.answers then
          GenResult.genError "Invalid answers or correct_answer"
        else if c.question ∈ history then
          match remaining with
          | r + 1 => genFrom oracle history (retry_count + 1) r
          | 0 => GenResult.genError "Unable to generate unique quiz question after max retries"
        else
          GenResult.ok c

/-- `generate_quiz_question` on its authored path: entered at a given
`retry_count` (callers use 0). -/
def generate_quiz_question (oracle : ℕ → Option Candidate) (history : List String)
    (retry_count : ℕ) : GenResult :=
  genFrom oracle history retry_count (MAX_RETRIES - retry_count)

/-- `generate_exam_question` (exam.py lines 85-195) restricted to its
decision-relevant inputs: it validates the same shape as the quiz path but
keeps no history and never retries. -/
def generate_exam_question (oracle : Option Candidate) : GenResult :=
  match oracle with
  | none => GenResult.genError "Unable to generate exam question"
  | some c =>
      if c.answers.length ≠ 4 ∨ c.correct_answer ∉ c.answers then
        GenResult.genError "Invalid answers or correct_answer"
      else
        GenResult.ok c

/-! ## Quiz evaluation (Quiz.py, `evaluate_quiz`) -/

/-- The fields of a stored quiz question read by `evaluate_quiz`. -/
structure QuizQuestion where
  question_id : String
  question : String
  correct_answer : String
  explanation : String
deriving DecidableEq

/-- The fields of one entry of the per-user `quiz_responses` map read by
`evaluate_quiz`. -/
structure QuizResponse where
  user_answer : Option String
  is_correct : Bool
deriving DecidableEq

/-- `quiz_responses.get(question_id, {}).get('is_correct', False)`
(Quiz.py lines 441-442). -/
def responseCorrect (responses : List (String × QuizResponse)) (qid : String) : Bool :=
  match dictGet qid responses with
  | none => false
  | some r => r.is_correct

/-- The `correct_count` accumulated by the loop at Quiz.py lines 439-444. -/
def quizCorrectCount (questions : List QuizQuestion)
    (responses : List (String × QuizResponse)) : ℕ :=
  (questions.filter fun q => responseCorrect responses q.question_id).length

/-- `score = correct_count / len(questions) if questions else 0`
(Quiz.py line 454). -/
def quizScore (questions : List QuizQuestion)
    (responses : List (String × QuizResponse)) : ℚ :=
  if questions.length = 0 then 0
  else (quizCorrectCount questions responses : ℚ) / (questions.length : ℚ)

/-- The decision-relevant fields of the dict returned by `evaluate_quiz`. -/
structure QuizEvaluation where
  result : String
  score : ℚ
  next_step : String
deriving DecidableEq

/-- `evaluate_quiz` (Quiz.py lines 424-487) restricted to its
decision-relevant inputs: the stored quiz's questions and the user's
`quiz_responses` map.  `passed = score >= PASS_THRESHOLD`; the passing branch
returns `next_step = "exam_mode"` unconditionally — nothing in the function
reads or updates any mastery / proficiency value. -/
def evaluate_quiz (questions : List QuizQuestion)
    (responses : List (String × QuizResponse)) : QuizEvaluation :=
  let score := quizScore questions responses
  if PASS_THRESHOLD ≤ score then
    { result := "pass", score := score, next_step := "exam_mode" }
  else
    { result := "fail", score := score, next_step := "summary" }

/-! ## Exam submission (exam.py, `submit_exam_answers`) -/

/-- The fields of a stored exam question read by `submit_exam_answers`. -/
structure ExamQuestion where
  question_id : String
  question : String
  correct_answer : String
  explanation : String
  topic : String
  year_group : String
deriving DecidableEq

/-- The `response_data` dict written under `exam_responses.{question_id}`
(exam.py lines 286-296). -/
structure ExamResponseData where
  question_id : String
  question : String
  user_answer : String
  correct_answer : String
  is_correct : Bool
deriving DecidableEq

/-- The stored exam state touched by `submit_exam_answers`. -/
structure Exam where
  questions : List ExamQuestion
  status : String
deriving DecidableEq

/-- The outcome of `submit_exam_answers`. -/
inductive ExamSubmitResult
  | notFound
  | countMismatch
  | submitted
deriving DecidableEq

/-- The `response_data` built for question `q` and truthy answer `ua`
(exam.py lines 286-296); `is_correct` is hard-coded `False` until
evaluation. -/
def examResponseEntry (q : ExamQuestion) (ua : String) : ExamResponseData :=
  { question_id := q.question_id
    question := q.question
    user_answer := ua
    correct_answer := q.correct_answer
    is_correct := false }

/-- The write loop of `submit_exam_answers` (exam.py lines 282-299):
`user_answer = answers.get(str(i))`, and the response is stored only when
that value is truthy (a non-empty string). -/
def writeExamResponses (questions : List ExamQuestion) (answers : List String) (idx : ℕ)
    (responses : List (String × ExamResponseData)) : List (String × ExamResponseData) :=
  match questions with
  | [] => responses
  | q :: rest =>
      let ua := (answers[idx]?).getD ""
      let responses' :=
        if ua ≠ "" then dictSet q.question_id (examResponseEntry q ua) responses
        else responses
      writeExamResponses rest answers (idx + 1) responses'

/-- `submit_exam_answers` (exam.py lines 267-307) restricted to its
decision-relevant state: the stored exam (`none` when the exam document does
not exist) and the user's `exam_responses` map.  The answers dict is keyed by
the stringified question index, so it is modelled positionally; the length
check at line 278 precedes every write. -/
def submit_exam_answers (exam : Option Exam)
    (user_responses : List (String × ExamResponseData)) (answers : List String) :
    Option Exam × List (String × ExamResponseData) × ExamSubmitResult :=
  match exam with
  | none => (none, user_responses, ExamSubmitResult.notFound)
  | some e =>
      if answers.length ≠ e.questions.length then
        (some e, user_responses, ExamSubmitResult.countMismatch)
      else
        (some { e with status := "submitted" },
          writeExamResponses e.questions answers 0 user_responses,
          ExamSubmitResult.submitted)

/-! ## Mastery store (study_plan.py) -/

/-- The decision-relevant slice of a user document read by
`get_initial_proficiency`: the nested `subjects_mastery` mapping. -/
structure UserData where
  subjects_mastery : List (String × List (String × ℚ))
deriving DecidableEq

/-- `get_initial_proficiency` (study_plan.py lines 43-44):
`user_data.get('subjects_mastery', {}).get(subject, {}).get(topic, 0.0)`. -/
def get_initial_proficiency (user_data : UserData) (subject topic : String) : ℚ :=
  match dictGet subject user_data.subjects_mastery with
  | none => 0
  | some topics =>
      match dictGet topic topics with
      | none => 0
      | some p => p

/-- Modelled from the spec: the Mastery Update Algorithm of spec section 4.3
(`new_proficiency = clamp(old + delta, 0, 1)`, stated there as the sole
mutation path for MasteryProfile) has no implementation under src/ — no code
in the repository writes `subjects_mastery`.  This definition follows the
spec's words. -/
def mastery_update (old delta : ℚ) : ℚ := max 0 (min 1 (old + delta))


/-! ## Concrete instances used by witnesses and counterexamples -/

/-- A two-round game in the playing state with one joined player who has 7
cumulative points. -/
def gameW1 : Game :=
  { host := "H", topic := "Math", year_group := "Year 5", max_questions := 3,
    players := [("U", { username := "u", score := 7 })], state := GameState.playing,
    current_question := some "2+2?", question_id := some "q1",
    correct_answer := some "ca", answers := ["ca", "x", "y", "z"], countdown := 0,
    question_number := 1, answer_counts := [], all_answered := false }

/-- A one-round, two-player game in the playing state in which Alice has
already answered the current (last) question; Bob's submission is the one
that completes the round. -/
def gameRoundEnd : Game :=
  { host := "A", topic := "Math", year_group := "Year 5", max_questions := 1,
    players := [("A", { username := "Alice", score := 0 }),
                ("B", { username := "Bob", score := 0 })],
    state := GameState.playing, current_question := some "2+2?",
    question_id := some "q1", correct_answer := some "ca",
    answers := ["ca", "x", "y", "z"], countdown := 0, question_number := 1,
    answer_counts :=
      [("A", { answer := "x", is_correct := false, score := 0, response_time := 20 })],
    all_answered := false }

/-- Like `gameRoundEnd` but with two rounds configured, so completing the
first round draws a new question instead of ending the game. -/
def gameRoundNext : Game :=
  { gameRoundEnd with max_questions := 2 }

/-- The request completing the round of `gameRoundEnd` / `gameRoundNext`:
Bob answers correctly at latency 20. -/
def reqRoundEnd : SubmitRequest :=
  { user_id := some "B", game_code := some "G", question_id := some "q1",
    answer := some "ca", response_time := some 20 }

/-- The question drawn for round two of `gameRoundNext`. -/
def mpQuestion2 : MPQuestion :=
  { question_id := "q2", question := "3+3?", answers := ["6", "7", "8", "9"],
    correct_answer := "6" }

/-- A game that has already ended, with one remaining player. -/
def gameEnded : Game :=
  { host := "A", topic := "Math", year_group := "Year 5", max_questions := 1,
    players := [("A", { username := "a", score := 5 })], state := GameState.ended,
    current_question := some "2+2?", question_id := some "q1",
    correct_answer := some "ca", answers := ["ca", "x", "y", "z"], countdown := 0,
    question_number := 1, answer_counts := [], all_answered := true }

/-- A lobby whose host "A" is about to leave while player "B" remains. -/
def gameHostLeave : Game :=
  { host := "A", topic := "Math", year_group := "Year 5", max_questions := 5,
    players := [("A", { username := "a", score := 3 }),
                ("B", { username := "b", score := 9 })],
    state := GameState.lobby, current_question := none, question_id := none,
    correct_answer := none, answers := [], countdown := 0, question_number := 0,
    answer_counts := [], all_answered := false }

/-- A well-formed candidate whose text coincides with the history entry
below. -/
def dupCand : Candidate :=
  { question := "Q", answers := ["a", "b", "c", "d"], correct_answer := "a",
    explanation := "e" }

/-- A well-formed candidate with fresh text. -/
def freshCand : Candidate :=
  { question := "R", answers := ["a", "b", "c", "d"], correct_answer := "a",
    explanation := "e" }

/-- An authoring oracle that produces the duplicate candidate on the first
five attempts (attempt indices 0 through 4) and the fresh candidate on every
later attempt. -/
def fiveDupOracle : ℕ → Option Candidate :=
  fun i => if i < 5 then some dupCand else some freshCand

/-- A well-formed candidate used by the shape witness. -/
def shapeCand : Candidate :=
  { question := "S", answers := ["w", "x", "y", "z"], correct_answer := "y",
    explanation := "e" }

/-- A stored quiz question and a correct response to it. -/
def quizQ1 : QuizQuestion :=
  { question_id := "qid1", question := "2+2?", correct_answer := "4",
    explanation := "expl" }

/-- A `quiz_responses` entry marking `quizQ1` answered correctly. -/
def respOk : QuizResponse := { user_answer := some "4", is_correct := true }

/-- A user document whose `subjects_mastery` mapping is empty. -/
def emptyUser : UserData := { subjects_mastery := [] }

/-- A stored exam with two questions. -/
def examW : Exam :=
  { questions :=
      [{ question_id := "e1", question := "2+2?", correct_answer := "4",
         explanation := "x", topic := "Math", year_group := "Year 5" },
       { question_id := "e2", question := "3+3?", correct_answer := "6",
         explanation := "x", topic := "Math", year_group := "Year 5" }],
    status := "in_progress" }

/-! ## Helper lemmas -/

theorem dictGet_dictSet_self {β : Type _} (k : String) (v : β) :
    ∀ l : List (String × β), dictGet k (dictSet k v l) = some v
  | [] => by simp [dictSet, dictGet]
  | (a, b) :: t => by
      by_cases h : a = k
      · simp [dictSet, h, dictGet]
      · simp [dictSet, h, dictGet, dictGet_dictSet_self k v t]

theorem dictGet_dictSet_ne {β : Type _} (k k' : String) (v : β) (h : k' ≠ k) :
    ∀ l : List (String × β), dictGet k' (dictSet k v l) = dictGet k' l
  | [] => by simp [dictSet, dictGet, Ne.symm h]
  | (a, b) :: t => by
      by_cases ha : a = k
      · subst ha
        simp [dictSet, dictGet, Ne.symm h]
      · simp only [dictSet, if_neg ha, dictGet]
        by_cases hk : a = k'
        · simp [hk]
        · simp [hk, dictGet_dictSet_ne k k' v h t]

theorem dictGet_filter_key_ne {β : Type _} (k uid : String) (h : k ≠ uid) :
    ∀ l : List (String × β),
      dictGet k (l.filter fun pr => pr.1 != uid) = dictGet k l
  | [] => rfl
  | (a, b) :: t => by
      by_cases ha : a = uid
      · subst ha
        have hak : a ≠ k := Ne.symm h
        simp [List.filter_cons, dictGet, hak, dictGet_filter_key_ne k a h t]
      · simp only [List.filter_cons, bne_iff_ne, ne_eq, ha, not_false_eq_true, if_true]
        by_cases hk : a = k
        · simp [dictGet, hk]
        · simp [dictGet, hk, dictGet_filter_key_ne k uid h t]

/-- The round score computed by the source equals the specification's
`100 + floor((1 - min(latency, 15)/15) * 50)` for correct answers and `0`
otherwise: Python's `int()` truncation agrees with `floor` because the
truncated quantity is never negative when `latency < 15`, and skipping the
bonus entirely at `latency >= 15` agrees with clamping the latency at 15,
where the bonus term vanishes. -/
theorem round_score_eq_spec (b : Bool) (rt : ℚ) :
    round_score b rt = if b = true then 100 + ⌊(1 - min rt 15 / 15) * 50⌋ else 0 := by
  cases b with
  | false => simp [round_score]
  | true =>
      by_cases h : rt < 15
      · have hmin : min rt 15 = rt := min_eq_left h.le
        have hpos : (0 : ℚ) ≤ (1 - rt / 15) * 50 := by nlinarith
        simp [round_score, h, hmin, pyInt, hpos]
      · push_neg at h
        have hmin : min rt 15 = 15 := min_eq_right h
        have hz : ((1 : ℚ) - 15 / 15) * 50 = 0 := by norm_num
        have hlt : ¬ rt < 15 := not_lt.mpr h
        simp [round_score, hmin, hz, hlt]

/-! ## Claim C1 -/

/-- C1: for every multiplayer `submit_answer` call that reaches a game whose
current `question_id` matches the submitted one, the round score is 0 when the
answer differs from the stored correct answer; when it matches, the round
score is `100 + floor((1 - min(latency, 15)/15) * 50)` — in particular 150 at
latency 0 and 100 at any latency of 15 or more — and exactly this amount is
added to that player's cumulative score. -/
theorem C1_multiplayer_round_scoring
    (games : Games) (req : SubmitRequest) (gen : Option MPQuestion)
    (uid gcode qid ans : String) (rt : ℚ) (g : Game) (p : Player)
    (hu : req.user_id = some uid) (hc : req.game_code = some gcode)
    (hq : req.question_id = some qid) (ha : req.answer = some ans)
    (hr : req.response_time = some rt)
    (hu2 : uid ≠ "") (hc2 : gcode ≠ "") (hq2 : qid ≠ "") (ha2 : ans ≠ "") (hr2 : rt ≠ 0)
    (hg : dictGet gcode games = some g)
    (hqid : g.question_id = some qid)
    (hp : dictGet uid g.players = some p) :
    (∃ g' : Game, dictGet gcode (api_submit_answer games req gen).1 = some g' ∧
        dictGet uid g'.players =
          some { p with score := p.score +
            (if some ans = g.correct_answer then 100 + ⌊(1 - min rt 15 / 15) * 50⌋ else 0) }) ∧
      round_score true 0 = 150 ∧
      ∀ rt' : ℚ, 15 ≤ rt' → round_score true rt' = 100 := by
  refine ⟨?_, ?_, ?_⟩
  · have hall : ¬ allTruthy req = false := by
      simp [allTruthy, truthyStr, truthyNum, hu, hc, hq, ha, hr, hu2, hc2, hq2, ha2, hr2]
    have hround :
        round_score (decide (some ans = g.correct_answer)) rt =
          if some ans = g.correct_answer then 100 + ⌊(1 - min rt 15 / 15) * 50⌋ else 0 := by
      rw [round_score_eq_spec]
      by_cases hca : some ans = g.correct_answer <;> simp [hca]
    simp only [api_submit_answer, hu, hc, hq, ha, hr, Option.getD_some]
    rw [if_neg hall]
    simp only [hg, hqid]
    rw [if_neg (by simp)]
    simp only [hp, hround, generate_new_question]
    rcases gen with _ | q2 <;> repeat' split
    all_goals
      first
      | exact ⟨_, dictGet_dictSet_self gcode _ games, dictGet_dictSet_self uid _ g.players⟩
      | (rename_i heq
         split at heq <;> cases heq <;>
           exact ⟨_, dictGet_dictSet_self gcode _ games, dictGet_dictSet_self uid _ g.players⟩)
  · rw [round_score_eq_spec]
    norm_num
  · intro rt' h
    rw [round_score_eq_spec, min_eq_right h]
    norm_num

/-- Witness for C1: a concrete correct submission at latency 20 against
`gameW1`. -/
theorem C1_witness :
    (∃ g' : Game,
        dictGet "G"
            (api_submit_answer [("G", gameW1)]
              { user_id := some "U", game_code := some "G", question_id := some "q1",
                answer := some "ca", response_time := some 20 } none).1 = some g' ∧
          dictGet "U" g'.players =
            some { username := "u", score := 7 +
              (if some "ca" = gameW1.correct_answer then
                100 + ⌊(1 - min (20 : ℚ) 15 / 15) * 50⌋ else 0) }) ∧
      round_score true 0 = 150 ∧
      ∀ rt' : ℚ, 15 ≤ rt' → round_score true rt' = 100 :=
  C1_multiplayer_round_scoring [("G", gameW1)] _ none "U" "G" "q1" "ca" 20 gameW1
    { username := "u", score := 7 } rfl rfl rfl rfl rfl (by decide) (by decide) (by decide)
    (by decide) (by norm_num) (by decide) rfl (by decide)

/-! ## Claim C10 -/

/-- C10: any `/api/submit_answer` request in which a required field is falsy —
in particular `response_time = 0` or `answer = ""` — is rejected as missing
required fields before the games map is consulted (the map is returned
untouched whatever it contains), so no submission with latency exactly 0 is
ever accepted or scored through this endpoint. -/
theorem C10_falsy_fields_rejected
    (games : Games) (req : SubmitRequest) (gen : Option MPQuestion)
    (h : req.response_time = some 0 ∨ req.answer = some "" ∨ allTruthy req = false) :
    api_submit_answer games req gen = (games, SubmitResult.missingFields) := by
  have hfalse : allTruthy req = false := by
    rcases h with h | h | h
    · simp [allTruthy, truthyNum, h]
    · simp [allTruthy, truthyStr, h]
    · exact h
  simp [api_submit_answer, hfalse]

/-- Witness for C10: a latency-0 submission naming an existing game and the
current question id is still rejected and the games map is unchanged. -/
theorem C10_witness :
    api_submit_answer [("G", gameW1)]
        { user_id := some "U", game_code := some "G", question_id := some "q1",
          answer := some "ca", response_time := some 0 } none =
      ([("G", gameW1)], SubmitResult.missingFields) :=
  C10_falsy_fields_rejected [("G", gameW1)] _ none (Or.inl rfl)

/-! ## Claim C4 -/

/-- C4 (intended round-advance logic, lock-erased): when the last remaining
joined player of a playing game records an answer for the current question,
the engine logic either transitions the game to `ended` with a leaderboard in
descending cumulative-score order (here: one round configured, one round
already asked) or draws the new question and advances the round counter
(here: two rounds configured).  In the source this code path is never
completed: `api_submit_answer` still holds the module-level non-reentrant
`game_lock` when it calls `generate_new_question`, which blocks acquiring the
same lock again. -/
theorem C4_round_advance_lock_erased :
    ((dictGet "G" (api_submit_answer [("G", gameRoundEnd)] reqRoundEnd none).1).map
        Game.state = some GameState.ended ∧
      (dictGet "G" (api_submit_answer [("G", gameRoundEnd)] reqRoundEnd none).1).map
        leaderboard = some [("Bob", 100), ("Alice", 0)] ∧
      (api_submit_answer [("G", gameRoundEnd)] reqRoundEnd none).2 =
        SubmitResult.ok true 100) ∧
    ((dictGet "G"
          (api_submit_answer [("G", gameRoundNext)] reqRoundEnd (some mpQuestion2)).1).map
        Game.state = some GameState.playing ∧
      (dictGet "G"
          (api_submit_answer [("G", gameRoundNext)] reqRoundEnd (some mpQuestion2)).1).map
        Game.question_id = some (some "q2") ∧
      (dictGet "G"
          (api_submit_answer [("G", gameRoundNext)] reqRoundEnd (some mpQuestion2)).1).map
        Game.question_number = some 2) := by
  decide

theorem dictGet_filter_self {β : Type _} (k : String) :
    ∀ l : List (String × β), dictGet k (l.filter fun pr => pr.1 != k) = none
  | [] => rfl
  | (a, b) :: t => by
      by_cases ha : a = k
      · subst ha
        simp [List.filter_cons, dictGet_filter_self a t]
      · simp [List.filter_cons, bne_iff_ne, ha, dictGet, dictGet_filter_self k t]

/-! ## Claim C5 -/

/-- C5 counterexample: `join_game` never inspects the game state, so joining
a game that is already `ended` succeeds — the claim that joining is allowed
in every state except ended is false at this input. -/
theorem C5_counterexample :
    gameEnded.state = GameState.ended ∧
    join_game [("G", gameEnded)] "B" "G" "bee" =
      Except.ok [("G", { gameEnded with
        players := [("A", { username := "a", score := 5 }),
                    ("B", { username := "bee", score := 0 })] })] :=
  ⟨rfl, rfl⟩

/-- C5 (amended): on an existing game, `join_game` rejects a join exactly when
the joining id is already in the player set, and otherwise admits the player
(with a fresh score of 0) in every game state — including `ended`; the game
state is never consulted. -/
theorem C5_join_checks_membership_not_state
    (games : Games) (uid gcode uname : String) (g : Game)
    (hg : dictGet gcode games = some g) :
    ((dictGet uid g.players).isSome →
      join_game games uid gcode uname = Except.error "User already in game") ∧
    (dictGet uid g.players = none →
      ∃ games', join_game games uid gcode uname = Except.ok games' ∧
        ∃ g', dictGet gcode games' = some g' ∧ g'.state = g.state ∧
          dictGet uid g'.players = some { username := uname, score := 0 }) := by
  constructor
  · intro h
    simp [join_game, hg, h]
  · intro h
    refine ⟨dictSet gcode
        { g with players := dictSet uid { username := uname, score := 0 } g.players } games,
      by simp [join_game, hg, h], _, dictGet_dictSet_self gcode _ games, rfl,
      dictGet_dictSet_self uid _ g.players⟩

/-- Witness for C5: the fresh user "B" joins the already-ended `gameEnded`. -/
theorem C5_witness :
    ∃ games', join_game [("G", gameEnded)] "B" "G" "bee" = Except.ok games' ∧
      ∃ g', dictGet "G" games' = some g' ∧ g'.state = gameEnded.state ∧
        dictGet "B" g'.players = some { username := "bee", score := 0 } :=
  (C5_join_checks_membership_not_state [("G", gameEnded)] "B" "G" "bee" gameEnded rfl).2 rfl

/-! ## Claim C6 -/

/-- C6: when a player of an existing game leaves, if they were the only
player the game is removed from the shared game map; if they were the host
and other players remain, the host role passes to one of the remaining
players (the first in the players dict) and every remaining player keeps its
stored record, in particular its cumulative score.  The id-nonemptiness
hypothesis reflects that every id entering the map passed a truthiness
check. -/
theorem C6_leave_destroys_or_transfers_host
    (games : Games) (uid gcode : String) (g : Game) (p : Player)
    (hu : uid ≠ "") (hc : gcode ≠ "")
    (hg : dictGet gcode games = some g)
    (hp : dictGet uid g.players = some p)
    (hids : ∀ pr ∈ g.players, pr.1 ≠ "") :
    (g.players = [(uid, p)] → dictGet gcode (api_leave_game games uid gcode).1 = none) ∧
    ((g.players.filter fun pr => pr.1 != uid) ≠ [] → g.host = uid →
      ∃ g', dictGet gcode (api_leave_game games uid gcode).1 = some g' ∧
        g'.host ∈ (g.players.filter fun pr => pr.1 != uid).map Prod.fst ∧
        ∀ k q, k ≠ uid → dictGet k g.players = some q → dictGet k g'.players = some q) := by
  have hcond : ¬ (uid = "" ∨ gcode = "") := by simp [hu, hc]
  constructor
  · intro hsole
    have hfe : g.players.filter (fun pr => pr.1 != uid) = [] := by
      rw [hsole]; simp
    simp only [api_leave_game]
    rw [if_neg hcond]
    simp only [hg]
    rw [if_pos (by simp [hp])]
    simp only [hfe]
    simp only [if_true]
    exact dictGet_filter_self gcode games
  · intro hne hhost
    simp only [api_leave_game]
    rw [if_neg hcond]
    simp only [hg]
    rw [if_pos (by simp [hp])]
    rw [if_neg hne, if_pos hhost]
    rcases hple : g.players.filter (fun pr => pr.1 != uid) with _ | ⟨pr0, rest⟩
    · exact absurd hple hne
    · have hmem : pr0 ∈ g.players.filter (fun pr => pr.1 != uid) := by
        rw [hple]; exact List.mem_cons_self pr0 rest
      have hmem2 : pr0 ∈ g.players := List.mem_of_mem_filter hmem
      have hkey : pr0.1 ≠ "" := hids pr0 hmem2
      rw [hple]
      simp only [List.head?_cons, Option.map_some', Option.getD_some]
      rw [if_pos hkey]
      refine ⟨_, dictGet_dictSet_self gcode _ games, ?_, ?_⟩
      · exact List.mem_map_of_mem Prod.fst (List.mem_cons_self pr0 rest)
      · intro k q hk hq
        have hfk := dictGet_filter_key_ne k uid hk g.players
        rw [hple] at hfk
        simp only
        rw [hfk]
        exact hq

/-- Witness for C6: host "A" leaves `gameHostLeave` while "B" remains. -/
theorem C6_witness :
    (gameHostLeave.players = [("A", { username := "a", score := 3 })] →
      dictGet "G" (api_leave_game [("G", gameHostLeave)] "A" "G").1 = none) ∧
    ((gameHostLeave.players.filter fun pr => pr.1 != "A") ≠ [] →
      gameHostLeave.host = "A" →
      ∃ g', dictGet "G" (api_leave_game [("G", gameHostLeave)] "A" "G").1 = some g' ∧
        g'.host ∈ (gameHostLeave.players.filter fun pr => pr.1 != "A").map Prod.fst ∧
        ∀ k q, k ≠ "A" → dictGet k gameHostLeave.players = some q →
          dictGet k g'.players = some q) :=
  C6_leave_destroys_or_transfers_host [("G", gameHostLeave)] "A" "G" gameHostLeave
    { username := "a", score := 3 } (by decide) (by decide) rfl rfl (by decide)

theorem genFrom_ok_props (oracle : ℕ → Option Candidate) (history : List String) :
    ∀ remaining retry_count c,
      genFrom oracle history retry_count remaining = GenResult.ok c →
      c.answers.length = 4 ∧ c.correct_answer ∈ c.answers ∧ c.question ∉ history := by
  intro remaining
  induction remaining with
  | zero =>
      intro retry_count c h
      rw [genFrom] at h
      split at h
      · exact absurd h (by simp)
      · split at h
        · exact absurd h (by simp)
        · split at h
          · exact absurd h (by simp)
          · rename_i c0 hvalid hdup
            cases h
            push_neg at hvalid
            exact ⟨hvalid.1, hvalid.2, hdup⟩
  | succ r ih =>
      intro retry_count c h
      rw [genFrom] at h
      split at h
      · exact absurd h (by simp)
      · split at h
        · exact absurd h (by simp)
        · split at h
          · exact ih (retry_count + 1) c h
          · rename_i c0 hvalid hdup
            cases h
            push_neg at hvalid
            exact ⟨hvalid.1, hvalid.2, hdup⟩

theorem genFrom_all_dup (oracle : ℕ → Option Candidate) (history : List String) :
    ∀ remaining retry_count,
      (∀ i, retry_count ≤ i → i ≤ retry_count + remaining →
        ∃ c, oracle i = some c ∧ c.answers.length = 4 ∧ c.correct_answer ∈ c.answers ∧
          c.question ∈ history) →
      genFrom oracle history retry_count remaining =
        GenResult.genError "Unable to generate unique quiz question after max retries" := by
  intro remaining
  induction remaining with
  | zero =>
      intro retry_count hdup
      obtain ⟨c, hor, hlen, hmem, hq⟩ := hdup retry_count le_rfl (by omega)
      rw [genFrom, hor]
      dsimp only
      rw [if_neg (by simp [hlen, hmem])]
      rw [if_pos hq]
  | succ r ih =>
      intro retry_count hdup
      obtain ⟨c, hor, hlen, hmem, hq⟩ := hdup retry_count le_rfl (by omega)
      rw [genFrom, hor]
      dsimp only
      rw [if_neg (by simp [hlen, hmem]), if_pos hq]
      exact ih (retry_count + 1) (fun i h1 h2 => hdup i (by omega) (by omega))

/-! ## Claim C2 -/

/-- C2 counterexample: the authoring oracle produces a history duplicate on
five consecutive attempts (indices 0 through 4) and a fresh question on the
sixth, yet `generate_quiz_question` returns the fresh question rather than
the duplicate-exhausted error — so "after 5 consecutive duplicate generations
the operation returns the terminal duplicate-exhausted error" is false: the
guard `retry_count < MAX_RETRIES` allows a sixth generation. -/
theorem C2_counterexample :
    (∀ i, i < 5 → fiveDupOracle i = some dupCand) ∧
    dupCand.question ∈ ["Q"] ∧
    generate_quiz_question fiveDupOracle ["Q"] 0 = GenResult.ok freshCand := by
  decide

/-- C2 (amended): a question whose text occurs in the caller-supplied history
is never returned, and when every one of the `MAX_RETRIES + 1 = 6`
consecutive generations (the initial attempt plus 5 retries) produces a
well-formed duplicate, the operation returns the terminal duplicate-exhausted
error instead of a question. -/
theorem C2_duplicates_blocked_retry_bound
    (oracle : ℕ → Option Candidate) (history : List String) :
    (∀ c, generate_quiz_question oracle history 0 = GenResult.ok c →
      c.question ∉ history) ∧
    ((∀ i, i ≤ MAX_RETRIES →
        ∃ c, oracle i = some c ∧ c.answers.length = 4 ∧ c.correct_answer ∈ c.answers ∧
          c.question ∈ history) →
      generate_quiz_question oracle history 0 =
        GenResult.genError "Unable to generate unique quiz question after max retries") := by
  constructor
  · intro c h
    simp only [generate_quiz_question, Nat.sub_zero] at h
    exact (genFrom_ok_props oracle history MAX_RETRIES 0 c h).2.2
  · intro hdup
    simp only [generate_quiz_question, Nat.sub_zero]
    exact genFrom_all_dup oracle history MAX_RETRIES 0
      (fun i h1 h2 => hdup i (by simpa using h2))

/-- Witness for C2: an oracle that always produces the duplicate exhausts the
six generations and yields the terminal error. -/
theorem C2_witness :
    generate_quiz_question (fun _ => some dupCand) ["Q"] 0 =
      GenResult.genError "Unable to generate unique quiz question after max retries" :=
  (C2_duplicates_blocked_retry_bound (fun _ => some dupCand) ["Q"]).2
    (fun _ _ => ⟨dupCand, rfl, by decide, by decide, by decide⟩)

/-! ## Claim C7 -/

/-- C7: every question returned without an error by question generation —
the quiz authoring path at any retry depth, and the exam authoring path —
has exactly 4 answers and a `correct_answer` that is a member of its
answers list. -/
theorem C7_returned_questions_validated
    (oracle : ℕ → Option Candidate) (history : List String)
    (retry_count : ℕ) (oe : Option Candidate) :
    (∀ c, generate_quiz_question oracle history retry_count = GenResult.ok c →
      c.answers.length = 4 ∧ c.correct_answer ∈ c.answers) ∧
    (∀ c, generate_exam_question oe = GenResult.ok c →
      c.answers.length = 4 ∧ c.correct_answer ∈ c.answers) := by
  constructor
  · intro c h
    simp only [generate_quiz_question] at h
    have hp := genFrom_ok_props oracle history (MAX_RETRIES - retry_count) retry_count c h
    exact ⟨hp.1, hp.2.1⟩
  · intro c h
    rcases oe with _ | c0
    · exact absurd h (by simp [generate_exam_question])
    · simp only [generate_exam_question] at h
      split at h
      · exact absurd h (by simp)
      · rename_i hvalid
        cases h
        push_neg at hvalid
        exact ⟨hvalid.1, hvalid.2⟩

/-- Witness for C7: a concrete well-formed candidate passes the exam-path
validation and indeed has 4 answers containing its correct answer. -/
theorem C7_witness :
    shapeCand.answers.length = 4 ∧ shapeCand.correct_answer ∈ shapeCand.answers :=
  (C7_returned_questions_validated (fun _ => some shapeCand) [] 0 (some shapeCand)).2
    shapeCand (by decide)

/-! ## Claim C3 -/

/-- C3 counterexample: a one-question quiz answered correctly evaluates to a
pass with `next_step = "exam_mode"` even though the user's stored proficiency
for the quiz's subject and topic is 0, which is below 0.8 — `evaluate_quiz`
grants exam mode on passing alone and neither reads nor updates any
proficiency value, so "next_step grants exam eligibility only if the
resulting proficiency is at least 0.8" is false at this input. -/
theorem C3_counterexample :
    evaluate_quiz [quizQ1] [("qid1", respOk)] =
      { result := "pass", score := 1, next_step := "exam_mode" } ∧
    get_initial_proficiency emptyUser "Math" "Algebra" = 0 ∧
    get_initial_proficiency emptyUser "Math" "Algebra" < 4 / 5 := by
  refine ⟨?_, rfl, by norm_num [get_initial_proficiency, emptyUser, dictGet]⟩
  norm_num [evaluate_quiz, quizScore, quizCorrectCount, responseCorrect, dictGet,
    quizQ1, respOk, PASS_THRESHOLD, List.filter]

/-- C3 (amended): for every evaluated quiz with at least one question, the
result is "pass" exactly when the fraction of correct responses reaches
`PASS_THRESHOLD = 0.7`, and `next_step` is "exam_mode" exactly under the same
condition — with no proficiency requirement of any kind. -/
theorem C3_quiz_pass_iff_threshold
    (questions : List QuizQuestion)
    (responses : List (String × QuizResponse)) (h : questions ≠ []) :
    ((evaluate_quiz questions responses).result = "pass" ↔
      PASS_THRESHOLD ≤ quizScore questions responses) ∧
    ((evaluate_quiz questions responses).next_step = "exam_mode" ↔
      PASS_THRESHOLD ≤ quizScore questions responses) ∧
    (evaluate_quiz questions responses).score =
      (quizCorrectCount questions responses : ℚ) / (questions.length : ℚ) := by
  have hlen : questions.length ≠ 0 := by simpa using h
  simp only [evaluate_quiz]
  by_cases hpass : PASS_THRESHOLD ≤ quizScore questions responses
  · rw [if_pos hpass]
    exact ⟨by simp [hpass], by simp [hpass], by simp [quizScore, hlen]⟩
  · rw [if_neg hpass]
    refine ⟨⟨fun hres => absurd ((by decide : ("fail" : String) ≠ "pass") hres) (by simp),
      fun hsc => absurd hsc hpass⟩,
      ⟨fun hres => absurd ((by decide : ("summary" : String) ≠ "exam_mode") hres) (by simp),
      fun hsc => absurd hsc hpass⟩,
      by simp [quizScore, hlen]⟩

/-- Witness for C3: the amended rule applied to the concrete one-question
quiz answered correctly. -/
theorem C3_witness :
    ((evaluate_quiz [quizQ1] [("qid1", respOk)]).result = "pass" ↔
      PASS_THRESHOLD ≤ quizScore [quizQ1] [("qid1", respOk)]) ∧
    ((evaluate_quiz [quizQ1] [("qid1", respOk)]).next_step = "exam_mode" ↔
      PASS_THRESHOLD ≤ quizScore [quizQ1] [("qid1", respOk)]) ∧
    (evaluate_quiz [quizQ1] [("qid1", respOk)]).score =
      (quizCorrectCount [quizQ1] [("qid1", respOk)] : ℚ) /
        (([quizQ1] : List QuizQuestion).length : ℚ) :=
  C3_quiz_pass_iff_threshold [quizQ1] [("qid1", respOk)] (by decide)

/-! ## Claim C8 -/

/-- C8: an exam-answer submission whose number of responses differs from the
exam's number of questions returns the count-mismatch validation error and
leaves both the stored exam (its status) and the user's recorded exam
responses unchanged: the length check precedes every write. -/
theorem C8_count_mismatch_leaves_state
    (e : Exam) (responses : List (String × ExamResponseData)) (answers : List String)
    (h : answers.length ≠ e.questions.length) :
    submit_exam_answers (some e) responses answers =
      (some e, responses, ExamSubmitResult.countMismatch) := by
  simp [submit_exam_answers, h]

/-- Witness for C8: one answer against a two-question exam is rejected with
the exam and response store returned untouched. -/
theorem C8_witness :
    submit_exam_answers (some examW) [] ["4"] =
      (some examW, [], ExamSubmitResult.countMismatch) :=
  C8_count_mismatch_leaves_state examW [] ["4"] (by decide)

/-! ## Claim C9 -/

/-- C9: the (spec-modelled) mastery update clamps `old + delta` into `[0, 1]`
for all inputs, so every stored per-topic proficiency lies in `[0, 1]` after
every update; and reading the proficiency of a subject/topic pair with no
stored entry yields 0 (`get_initial_proficiency`, study_plan.py line 44). -/
theorem C9_proficiency_clamped_and_default :
    (∀ old delta : ℚ, 0 ≤ mastery_update old delta ∧ mastery_update old delta ≤ 1) ∧
    ∀ (u : UserData) (s t : String),
      (∀ ts, dictGet s u.subjects_mastery = some ts → dictGet t ts = none) →
      get_initial_proficiency u s t = 0 := by
  constructor
  · intro old delta
    exact ⟨le_max_left 0 _, max_le (by norm_num) (min_le_left 1 _)⟩
  · intro u s t h
    simp only [get_initial_proficiency]
    rcases hs : dictGet s u.subjects_mastery with _ | ts
    · rfl
    · dsimp only
      rw [h ts hs]

/-- Witness for C9: a concrete clamped update stays in `[0, 1]`, and a user
with an empty mastery map reads proficiency 0. -/
theorem C9_witness :
    (0 ≤ mastery_update (1 / 2) (7 / 10) ∧ mastery_update (1 / 2) (7 / 10) ≤ 1) ∧
    get_initial_proficiency emptyUser "Science" "Physics" = 0 :=
  ⟨C9_proficiency_clamped_and_default.1 (1 / 2) (7 / 10),
   C9_proficiency_clamped_and_default.2 emptyUser "Science" "Physics"
     (fun ts hts => by simp [emptyUser, dictGet] at hts)⟩

end StudyBuddy
